import Mathlib

/-!
Verification development for the sales-order processing backend
(src/backend/main.py, src/backend/models.py).

The Python source is shallowly embedded: JSON-ish values become the
inductive type Value, extracted rows become association lists from field
names to values, Python float values are modelled as exact rationals
(the claims under study never depend on binary rounding: every price is
either stored verbatim or assigned the product quantity * unit_price),
the SQLAlchemy session becomes an explicit DB state record, and each
HTTP handler becomes a pure function from its inputs and the DB state to
a result and an updated DB state.
-/

/-- A JSON-ish scalar value as it appears in an extracted row or a
matching response.  Value.none models the Python None. -/
inductive Value where
  | none
  | str (s : String)
  | int (n : Int)
  | float (q : Rat)
deriving Repr, DecidableEq

/-- An extracted row: a mapping from provider field names to values,
modelled as an association list (first binding wins, as in a dict). -/
def Item : Type := List (String × Value)

instance : DecidableEq Item := by
  unfold Item
  infer_instance

/-- Digit-string value, most significant first. -/
def digitsVal (cs : List Char) : Nat :=
  cs.foldl (fun acc c => acc * 10 + (c.toNat - 48)) 0

/-- Strip leading and trailing spaces, as Python numeric coercions do. -/
def stripSpaces (cs : List Char) : List Char :=
  ((cs.dropWhile (fun c => c = ' ')).reverse.dropWhile (fun c => c = ' ')).reverse

/-- Consume an optional leading sign; returns (isNegative, rest). -/
def parseSign : List Char → Bool × List Char
  | c :: rest =>
    if c = '-' then (true, rest)
    else if c = '+' then (false, rest)
    else (false, c :: rest)
  | [] => (false, [])

/-- Parse a nonempty all-digit string. -/
def parseNatDigits (cs : List Char) : Option Nat :=
  if cs.isEmpty then Option.none
  else if cs.all Char.isDigit then some (digitsVal cs)
  else Option.none

/-- Split a character list at the first dot, if any. -/
def splitDot : List Char → Option (List Char × List Char)
  | [] => Option.none
  | c :: rest =>
    if c = '.' then some ([], rest)
    else (splitDot rest).map (fun p => (c :: p.1, p.2))

/-- Python int(s) on a string: optional sign followed by decimal digits
(the common subset of the Python integer-literal grammar). -/
def pyIntOfString (s : String) : Option Int :=
  let sr := parseSign (stripSpaces s.toList)
  match parseNatDigits sr.2 with
  | some n => some (if sr.1 then -(n : Int) else (n : Int))
  | Option.none => Option.none

/-- Python float(s) on a string: optional sign, digits with at most one
dot, at least one digit overall (the common subset of the Python
float-literal grammar). -/
def pyFloatOfString (s : String) : Option Rat :=
  let sr := parseSign (stripSpaces s.toList)
  let v : Option Rat :=
    match splitDot sr.2 with
    | Option.none => (parseNatDigits sr.2).map (fun n => (n : Rat))
    | some p =>
      if p.1.all Char.isDigit && p.2.all Char.isDigit
          && (!p.1.isEmpty || !p.2.isEmpty) then
        some ((digitsVal p.1 : Rat) + (digitsVal p.2 : Rat) / ((10 : Rat) ^ p.2.length))
      else Option.none
  v.map (fun q => if sr.1 then -q else q)

/-- Python int(v) coercion: returns none exactly when int would raise
ValueError or TypeError.  int of a float truncates toward zero. -/
def pyInt : Value → Option Int
  | Value.none => Option.none
  | Value.int n => some n
  | Value.float q => some (Int.tdiv q.num (q.den : Int))
  | Value.str s => pyIntOfString s

/-- Python float(v) coercion: returns none exactly when float would
raise ValueError or TypeError. -/
def pyFloat : Value → Option Rat
  | Value.none => Option.none
  | Value.int n => some (n : Rat)
  | Value.float q => some q
  | Value.str s => pyFloatOfString s

/-- COLUMN_MAPPINGS from main.py: ordered alias lists for the four
canonical fields. -/
def COLUMN_MAPPINGS (column_type : String) : List String :=
  if column_type = "description" then
    ["Request Item", "Item Description", "Description", "Product", "Part Description"]
  else if column_type = "quantity" then
    ["Quantity", "Amount", "Qty", "Order Qty"]
  else if column_type = "unit_price" then
    ["Unit Price", "Price", "Unit Cost", "Price/Unit"]
  else if column_type = "total_price" then
    ["Total", "Total Price", "Extended Price", "Line Total"]
  else []

/-- find_matching_column from main.py: the first alias present in the
row (presence means the key exists, even when its value is None). -/
def find_matching_column (item : Item) (column_type : String) : Option String :=
  (COLUMN_MAPPINGS column_type).find? (fun name => (item.lookup name).isSome)

/-- The canonical record produced by normalization. -/
structure Transformed where
  description : Value
  quantity : Int
  unit_price : Rat
  total_price : Rat
deriving Repr, DecidableEq

/-- Quantity resolution (main.py lines 94-101, the coercion part): int
coercion of the value under the already-found quantity key, with 0 on
coercion failure. -/
def resolveQuantity (item : Item) (qty_key : String) : Int :=
  (pyInt ((item.lookup qty_key).getD Value.none)).getD 0

/-- Unit-price resolution (main.py lines 103-111): 0 when the alias is
missing, the value is None, or float coercion fails. -/
def resolveUnitPrice (item : Item) : Rat :=
  match find_matching_column item "unit_price" with
  | some price_key =>
    match item.lookup price_key with
    | some Value.none => 0
    | some v => (pyFloat v).getD 0
    | Option.none => 0
  | Option.none => 0

/-- Total-price resolution (main.py lines 113-121): falls back to
quantity * unit_price when the alias is missing, the value is None, or
float coercion fails. -/
def resolveTotalPrice (item : Item) (quantity : Int) (unit_price : Rat) : Rat :=
  match find_matching_column item "total_price" with
  | some total_key =>
    match item.lookup total_key with
    | some Value.none => (quantity : Rat) * unit_price
    | some v => (pyFloat v).getD ((quantity : Rat) * unit_price)
    | Option.none => (quantity : Rat) * unit_price
  | Option.none => (quantity : Rat) * unit_price

/-- transform_extracted_item from main.py: none models the uncaught
ValueError raised when the description key or the quantity key is
missing; all other coercion failures fall back silently. -/
def transform_extracted_item (item : Item) : Option Transformed :=
  match find_matching_column item "description", find_matching_column item "quantity" with
  | some desc_key, some qty_key =>
    let quantity := resolveQuantity item qty_key
    let unit_price := resolveUnitPrice item
    some { description := (item.lookup desc_key).getD Value.none
           quantity := quantity
           unit_price := unit_price
           total_price := resolveTotalPrice item quantity unit_price }
  | _, _ => Option.none

/-- The condition under which the source takes the total-price fallback
branch: alias missing, value None, or float coercion failing. -/
def totalFallbackPath (item : Item) : Bool :=
  match find_matching_column item "total_price" with
  | some total_key =>
    match item.lookup total_key with
    | some Value.none => true
    | some v => (pyFloat v).isNone
    | Option.none => true
  | Option.none => true


/-- One candidate returned by the matching service for a query: the
fields read via get, so each may be absent. -/
structure Candidate where
  matchField : Option String
  score : Option Rat
deriving Repr, DecidableEq

/-- One row of the fastener catalog file (columns Type, Material, Size,
Length, Coating, Thread Type, Description). -/
structure CatalogRow where
  type : String
  material : String
  size : String
  length : String
  coating : String
  threadType : String
  description : String
deriving Repr, DecidableEq

/-- The space-joined display name derived from a catalog row, as built
in main.py line 220. -/
def displayName (r : CatalogRow) : String :=
  r.type ++ " " ++ r.material ++ " " ++ r.size ++ " " ++ r.length ++ " "
    ++ r.coating ++ " " ++ r.threadType

/-- The catalog item dictionary built in main.py lines 222-226 when the
display name of a row equals the matched key. -/
structure CatalogItem where
  id : String
  name : String
  description : String
deriving Repr, DecidableEq

/-- The linear scan over catalog rows in main.py lines 216-227: first
row whose derived display name equals the matched key. -/
def findCatalogItem (rows : List CatalogRow) (key : String) : Option CatalogItem :=
  match rows.find? (fun r => displayName r = key) with
  | some r => some { id := key, name := displayName r, description := r.description }
  | Option.none => Option.none

/-- The JSON dictionary persisted in the catalog_match_data column
(main.py lines 239-243). -/
structure CatalogMatchData where
  id : String
  name : String
  description : String
deriving Repr, DecidableEq

/-- The LineItem ORM row from models.py. -/
structure LineItem where
  id : Nat
  sales_order_id : Nat
  description : Value
  quantity : Int
  unit_price : Rat
  total_price : Rat
  catalog_match_id : Option String
  catalog_match_data : Option CatalogMatchData
  confidence_score : Rat
  status : String
deriving Repr, DecidableEq

/-- The SalesOrder ORM row from models.py (creation timestamp omitted:
no claim mentions it). -/
structure SalesOrder where
  id : Nat
  filename : String
  original_filename : String
  status : String
deriving Repr, DecidableEq

/-- The relational store: committed orders and line items, plus the
autoincrement counters for primary keys. -/
structure DB where
  orders : List SalesOrder
  line_items : List LineItem
  nextOrderId : Nat
  nextLineItemId : Nat
deriving Repr, DecidableEq

/-- The candidate list for one description in the batch response:
results dictionary lookup with default empty list (main.py line 205).
The dictionary keys are strings, so a non-string description never
matches. -/
def resultsFor (results : List (String × List Candidate)) : Value → List Candidate
  | Value.str s => (results.lookup s).getD []
  | _ => []

/-- The line item persisted for one transformed row (main.py lines
203-267).  Note the stored catalog_match_data repeats the matched key in
all three fields and ignores the catalog lookup entirely; a falsy
(absent or empty) key stores null instead. -/
def mk_line_item (results : List (String × List Candidate)) (oid iid : Nat)
    (t : Transformed) : LineItem :=
  match resultsFor results t.description with
  | best :: _ =>
    { id := iid, sales_order_id := oid, description := t.description,
      quantity := t.quantity, unit_price := t.unit_price, total_price := t.total_price,
      catalog_match_id := best.matchField,
      catalog_match_data :=
        match best.matchField with
        | some k => if k = "" then Option.none else some { id := k, name := k, description := k }
        | Option.none => Option.none,
      confidence_score := best.score.getD 0,
      status := "pending" }
  | [] =>
    { id := iid, sales_order_id := oid, description := t.description,
      quantity := t.quantity, unit_price := t.unit_price, total_price := t.total_price,
      catalog_match_id := Option.none, catalog_match_data := Option.none,
      confidence_score := 0, status := "pending" }

/-- The matched_items response entry for one transformed row (main.py
lines 213-229 and 249-253, 269-273).  The catalog lookup result only
appears here; a missing catalog source (open failing) leaves it none. -/
def mk_matched_item (results : List (String × List Candidate))
    (catalog : Option (List CatalogRow)) (t : Transformed) :
    Transformed × Option CatalogItem × Rat :=
  match resultsFor results t.description with
  | best :: _ =>
    (t,
     match best.matchField, catalog with
     | some k, some rows => findCatalogItem rows k
     | _, _ => Option.none,
     best.score.getD 0)
  | [] => (t, Option.none, 0)

/-- The per-row loop of main.py lines 203-273: one persisted line item
and one response entry per transformed row, with sequential ids. -/
def process_items (results : List (String × List Candidate))
    (catalog : Option (List CatalogRow)) (oid : Nat) :
    Nat → List Transformed → List LineItem × List (Transformed × Option CatalogItem × Rat)
  | _, [] => ([], [])
  | iid, t :: ts =>
    (mk_line_item results oid iid t :: (process_items results catalog oid (iid + 1) ts).1,
     mk_matched_item results catalog t :: (process_items results catalog oid (iid + 1) ts).2)

/-- The successful response body of the upload handler. -/
structure UploadResponse where
  id : Nat
  filename : String
  original_filename : String
  extracted_data : List Transformed
  matched_items : List (Transformed × Option CatalogItem × Rat)
deriving Repr, DecidableEq

/-- Outcome of the upload handler after a successful extraction call.
noValidItems models the HTTPException with status 400 raised when no row
survives normalization; matchingFailed models the HTTPException that
propagates the non-200 status of the batch matching response. -/
inductive UploadResult where
  | noValidItems
  | matchingFailed (status : Nat)
  | ok (resp : UploadResponse)
deriving Repr, DecidableEq

/-- The upload handler from main.py lines 159-286, starting after a
successful extraction call (extracted_items is the parsed extraction
response; batchStatus and results are the batch matching response;
catalog is the catalog file contents, none when it cannot be opened).
The order row is committed before the matching call, so it is part of
the final state even when matching fails. -/
def upload_pdf (db : DB) (unique_filename original_filename : String)
    (extracted_items : List Item) (batchStatus : Nat)
    (results : List (String × List Candidate))
    (catalog : Option (List CatalogRow)) : UploadResult × DB :=
  let transformed_items := extracted_items.filterMap transform_extracted_item
  if transformed_items.isEmpty then (UploadResult.noValidItems, db)
  else
    let order : SalesOrder :=
      { id := db.nextOrderId, filename := unique_filename,
        original_filename := original_filename, status := "pending" }
    let db1 : DB := { db with orders := db.orders ++ [order], nextOrderId := db.nextOrderId + 1 }
    if batchStatus = 200 then
      let processed := process_items results catalog order.id db1.nextLineItemId transformed_items
      (UploadResult.ok
        { id := order.id, filename := unique_filename,
          original_filename := original_filename,
          extracted_data := transformed_items, matched_items := processed.2 },
       { db1 with line_items := db1.line_items ++ processed.1,
                  nextLineItemId := db1.nextLineItemId + processed.1.length })
    else (UploadResult.matchingFailed batchStatus, db1)

/-- get_order from main.py lines 301-311: none models the 404. -/
def get_order (db : DB) (order_id : Nat) : Option (SalesOrder × List LineItem) :=
  match db.orders.find? (fun o => o.id = order_id) with
  | some o => some (o, db.line_items.filter (fun li => li.sales_order_id = order_id))
  | Option.none => Option.none

/-- Mutating the first list element satisfying p, as a SQLAlchemy
first-then-assign update does. -/
def updateFirst (p : LineItem → Bool) (f : LineItem → LineItem) : List LineItem → List LineItem
  | [] => []
  | li :: rest => if p li then f li :: rest else li :: updateFirst p f rest

/-- The row filter used by update_match and update_line_item. -/
def liSelector (order_id line_item_id : Nat) (li : LineItem) : Bool :=
  li.id = line_item_id && li.sales_order_id = order_id

/-- update_match from main.py lines 313-333: none models the 404 raised
when no line item with that id belongs to the order; otherwise the
addressed line item gets the new catalog_match_id and status verified. -/
def update_match (db : DB) (order_id line_item_id : Nat) (catalog_item_id : String) :
    Option DB :=
  match db.line_items.find? (liSelector order_id line_item_id) with
  | some _ =>
    some { db with line_items := (updateFirst (liSelector order_id line_item_id)
      (fun li => { li with catalog_match_id := some catalog_item_id, status := "verified" })
      db.line_items) }
  | Option.none => Option.none

/-- The request body of update_line_item (class LineItemBase). -/
structure LineItemBase where
  description : String
  quantity : Int
  unit_price : Rat
  total_price : Rat
deriving Repr, DecidableEq

/-- The wholesale field overwrite of main.py lines 430-432. -/
def applyLineItemBase (f : LineItemBase) (li : LineItem) : LineItem :=
  { li with description := Value.str f.description, quantity := f.quantity,
            unit_price := f.unit_price, total_price := f.total_price }

/-- update_line_item from main.py lines 414-437: none models the 404;
otherwise the first matching row is overwritten and returned. -/
def update_line_item (db : DB) (order_id line_item_id : Nat) (fields : LineItemBase) :
    Option (LineItem × DB) :=
  match db.line_items.find? (liSelector order_id line_item_id) with
  | some li0 =>
    some (applyLineItemBase fields li0,
          { db with line_items := (updateFirst (liSelector order_id line_item_id)
              (applyLineItemBase fields) db.line_items) })
  | Option.none => Option.none

/-- The CSV header row written in main.py lines 349-355. -/
def exportHeader : List Value :=
  [Value.str "Description", Value.str "Quantity", Value.str "Unit Price",
   Value.str "Total Price", Value.str "Catalog Match"]

/-- One CSV data row (main.py lines 358-365): the last cell is the name
field of the stored match data when present, else the literal No match. -/
def exportRow (li : LineItem) : List Value :=
  [li.description, Value.int li.quantity, Value.float li.unit_price,
   Value.float li.total_price,
   match li.catalog_match_data with
   | some d => Value.str d.name
   | Option.none => Value.str "No match"]

/-- Setting the status of the first order with the given id, as the
found-object mutation of main.py line 368 does. -/
def markExportedFirst (order_id : Nat) : List SalesOrder → List SalesOrder
  | [] => []
  | o :: rest =>
    if o.id = order_id then { o with status := "exported" } :: rest
    else o :: markExportedFirst order_id rest

/-- export_order from main.py lines 335-379: none models the 404; on
success it returns the CSV rows and the state in which the order is
already marked exported (the commit happens before the stream is
returned). -/
def export_order (db : DB) (order_id : Nat) : Option (List (List Value) × DB) :=
  match db.orders.find? (fun o => o.id = order_id) with
  | some _ =>
    some (exportHeader ::
            (db.line_items.filter (fun li => li.sales_order_id = order_id)).map exportRow,
          { db with orders := markExportedFirst order_id db.orders })
  | Option.none => Option.none

/-- A concrete catalog row used by counterexamples and witnesses; its
derived display name is sampleKey and its Description column differs
from it. -/
def sampleRow : CatalogRow :=
  { type := "Bolt", material := "Steel", size := "M6", length := "20mm",
    coating := "Zinc", threadType := "Coarse", description := "Hex head bolt" }

/-- The display name of sampleRow, as the matching service would return
it as a match key. -/
def sampleKey : String := "Bolt Steel M6 20mm Zinc Coarse"

/-- A fresh store. -/
def emptyDB : DB := { orders := [], line_items := [], nextOrderId := 1, nextLineItemId := 1 }

/-- A one-row extraction response with a description and a quantity. -/
def sampleExtracted : List Item :=
  [[("Description", Value.str "Bolt M6"), ("Qty", Value.str "5")]]

/-- A batch matching response with one candidate for that row. -/
def sampleResults : List (String × List Candidate) :=
  [("Bolt M6", [{ matchField := some sampleKey, score := some (91/100) }])]

/-- A persisted order with one line item, used by the CRUD and export
witnesses. -/
def sampleOrder : SalesOrder :=
  { id := 1, filename := "f.pdf", original_filename := "o.pdf", status := "pending" }

/-- The line item of sampleOrder, as ingestion would have stored it. -/
def sampleItem : LineItem :=
  { id := 1, sales_order_id := 1, description := Value.str "Bolt M6", quantity := 5,
    unit_price := 2, total_price := 10, catalog_match_id := some sampleKey,
    catalog_match_data := some { id := sampleKey, name := sampleKey, description := sampleKey },
    confidence_score := 91/100, status := "pending" }

/-- A store holding sampleOrder and sampleItem. -/
def sampleDB : DB :=
  { orders := [sampleOrder], line_items := [sampleItem], nextOrderId := 2, nextLineItemId := 2 }

/-!  Theorems.  Claim theorems are named Cn_...; lemmas shared between
claims carry no claim name. -/

/-- Inversion of a successful normalization: both the description and
the quantity alias were found, and the record is built from the three
resolvers. -/
theorem transform_eq_some (item : Item) (t : Transformed)
    (h : transform_extracted_item item = some t) :
    ∃ dk qk, find_matching_column item "description" = some dk ∧
      find_matching_column item "quantity" = some qk ∧
      t = { description := (item.lookup dk).getD Value.none,
            quantity := resolveQuantity item qk,
            unit_price := resolveUnitPrice item,
            total_price := resolveTotalPrice item (resolveQuantity item qk)
              (resolveUnitPrice item) } := by
  unfold transform_extracted_item at h
  cases hd : find_matching_column item "description" <;> rw [hd] at h
  · cases h
  · cases hq : find_matching_column item "quantity" <;> rw [hq] at h
    · cases h
    · injection h with h
      exact ⟨_, _, rfl, rfl, h.symm⟩

/-- When the fallback condition holds, the total-price resolver returns
exactly quantity times unit price. -/
theorem resolveTotalPrice_fallback (item : Item) (q : Int) (u : Rat)
    (hfb : totalFallbackPath item = true) :
    resolveTotalPrice item q u = (q : Rat) * u := by
  cases htk : find_matching_column item "total_price" with
  | none => simp [resolveTotalPrice, htk]
  | some k =>
    cases hv : item.lookup k with
    | none => simp [resolveTotalPrice, htk, hv]
    | some v =>
      cases v with
      | none => simp [resolveTotalPrice, htk, hv]
      | str s =>
        have hfn : pyFloat (Value.str s) = Option.none := by
          have := hfb
          simp [totalFallbackPath, htk, hv] at this
          exact this
        simp [resolveTotalPrice, htk, hv, hfn]
      | int n => simp [totalFallbackPath, htk, hv, pyFloat] at hfb
      | float q0 => simp [totalFallbackPath, htk, hv, pyFloat] at hfb

/-- C1 (amended): a row holding a recognized description alias but no
recognized quantity alias fails normalization, because the source raises
for a missing quantity key exactly as for a missing description key;
quantity falls back to 0 only when a quantity alias is present but
integer coercion of its value fails. -/
theorem C1_missing_quantity_fails (item : Item) (dk : String)
    (hdesc : find_matching_column item "description" = some dk) :
    (find_matching_column item "quantity" = Option.none →
      transform_extracted_item item = Option.none) ∧
    (∀ qk t, find_matching_column item "quantity" = some qk →
      pyInt ((item.lookup qk).getD Value.none) = Option.none →
      transform_extracted_item item = some t → t.quantity = 0) := by
  constructor
  · intro hq
    unfold transform_extracted_item
    rw [hdesc, hq]
  · intro qk t hq hpy ht
    obtain ⟨dk2, qk2, hd2, hq2, rfl⟩ := transform_eq_some item t ht
    rw [hq] at hq2
    injection hq2 with hq2
    subst hq2
    simp [resolveQuantity, hpy]

/-- C1: the claim fails on the code.  This row has the description
alias Description but no quantity alias, and normalization rejects it
instead of succeeding with quantity 0. -/
theorem C1_counterexample :
    transform_extracted_item [("Description", Value.str "Bolt M6")] = Option.none := by
  with_unfolding_all decide

/-- Witness for C1: the amended theorem applied at a concrete row. -/
theorem C1_witness :
    transform_extracted_item [("Product", Value.str "Widget")] = Option.none :=
  (C1_missing_quantity_fails [("Product", Value.str "Widget")] "Product"
    (by with_unfolding_all decide)).1 (by with_unfolding_all decide)

/-- C3: whenever the total-price alias is missing, its value is absent,
or decimal coercion of it fails, the normalized total price equals the
normalized quantity times the normalized unit price of the same row. -/
theorem C3_total_price_fallback (item : Item) (t : Transformed)
    (h : transform_extracted_item item = some t)
    (hfb : totalFallbackPath item = true) :
    t.total_price = (t.quantity : Rat) * t.unit_price := by
  obtain ⟨dk, qk, hd, hq, rfl⟩ := transform_eq_some item t h
  simpa using resolveTotalPrice_fallback item (resolveQuantity item qk)
    (resolveUnitPrice item) hfb

/-- Witness for C3: a row with no total-price alias normalizes with
total price 10 = 5 * 2. -/
theorem C3_witness :
    transform_extracted_item
        [("Description", Value.str "Bolt"), ("Qty", Value.str "5"),
         ("Unit Price", Value.str "2")] =
      some { description := Value.str "Bolt", quantity := 5,
             unit_price := 2, total_price := 10 } ∧
    (10 : Rat) = ((5 : Int) : Rat) * 2 :=
  ⟨by with_unfolding_all decide,
   C3_total_price_fallback
     [("Description", Value.str "Bolt"), ("Qty", Value.str "5"),
      ("Unit Price", Value.str "2")]
     { description := Value.str "Bolt", quantity := 5, unit_price := 2, total_price := 10 }
     (by with_unfolding_all decide) (by with_unfolding_all decide)⟩

/-- C4: a row with no recognized description alias fails normalization,
the rest of the batch is processed as if the row were absent, and an
upload in which no row survives fails with the no-valid-items error
(HTTP 400) leaving the store untouched. -/
theorem C4_bad_row_skipped (db : DB) (ufn ofn : String) (r : Item) (rest : List Item)
    (bs : Nat) (results : List (String × List Candidate))
    (catalog : Option (List CatalogRow))
    (hdesc : find_matching_column r "description" = Option.none) :
    transform_extracted_item r = Option.none ∧
    upload_pdf db ufn ofn (r :: rest) bs results catalog =
      upload_pdf db ufn ofn rest bs results catalog ∧
    (rest.filterMap transform_extracted_item = [] →
      upload_pdf db ufn ofn (r :: rest) bs results catalog =
        (UploadResult.noValidItems, db)) ∧
    (∀ rows : List Item, rows.filterMap transform_extracted_item = [] →
      upload_pdf db ufn ofn rows bs results catalog =
        (UploadResult.noValidItems, db)) := by
  have hr : transform_extracted_item r = Option.none := by
    unfold transform_extracted_item
    rw [hdesc]
  refine ⟨hr, ?_, ?_, ?_⟩
  · simp only [upload_pdf, List.filterMap_cons_none hr]
  · intro hrest
    simp only [upload_pdf, List.filterMap_cons_none hr, hrest, List.isEmpty_nil, if_true]
  · intro rows hrows
    simp only [upload_pdf, hrows, List.isEmpty_nil, if_true]

/-- Witness for C4 at a concrete one-row batch. -/
theorem C4_witness :
    upload_pdf { orders := [], line_items := [], nextOrderId := 1, nextLineItemId := 1 }
        "f.pdf" "o.pdf" [[("Qty", Value.int 1)]] 200 [] Option.none =
      (UploadResult.noValidItems,
       { orders := [], line_items := [], nextOrderId := 1, nextLineItemId := 1 }) :=
  (C4_bad_row_skipped
    { orders := [], line_items := [], nextOrderId := 1, nextLineItemId := 1 }
    "f.pdf" "o.pdf" [("Qty", Value.int 1)] [] 200 [] Option.none
    (by with_unfolding_all decide)).2.2.1 (by with_unfolding_all decide)

/-- Indexing the persisted line-item list produced by the per-row loop:
the i-th created line item comes from the i-th transformed row and gets
the i-th sequential id. -/
theorem process_items_fst_getElem (results : List (String × List Candidate))
    (catalog : Option (List CatalogRow)) (oid : Nat) :
    ∀ (ts : List Transformed) (iid i : Nat) (t : Transformed),
      ts[i]? = some t →
      (process_items results catalog oid iid ts).1[i]? =
        some (mk_line_item results oid (iid + i) t)
  | [], _, i, _, ht => by simp at ht
  | a :: as, iid, 0, t, ht => by
    simp at ht
    subst ht
    simp [process_items]
  | a :: as, iid, n + 1, t, ht => by
    simp at ht
    have ih := process_items_fst_getElem results catalog oid as (iid + 1) n t ht
    simp only [process_items, List.getElem?_cons_succ]
    rw [ih]
    have : iid + 1 + n = iid + (n + 1) := by omega
    rw [this]

/-- Indexing the matched_items response list produced by the per-row
loop. -/
theorem process_items_snd_getElem (results : List (String × List Candidate))
    (catalog : Option (List CatalogRow)) (oid : Nat) :
    ∀ (ts : List Transformed) (iid i : Nat) (t : Transformed),
      ts[i]? = some t →
      (process_items results catalog oid iid ts).2[i]? =
        some (mk_matched_item results catalog t)
  | [], _, i, _, ht => by simp at ht
  | a :: as, iid, 0, t, ht => by
    simp at ht
    subst ht
    simp [process_items]
  | a :: as, iid, n + 1, t, ht => by
    simp at ht
    have ih := process_items_snd_getElem results catalog oid as (iid + 1) n t ht
    simp only [process_items, List.getElem?_cons_succ]
    exact ih

/-- The successful-upload branch: what upload_pdf returns when at least
one row survives normalization and the matching call returns 200. -/
theorem upload_pdf_ok_eq (db : DB) (ufn ofn : String) (extracted : List Item)
    (results : List (String × List Candidate)) (catalog : Option (List CatalogRow))
    (hne : extracted.filterMap transform_extracted_item ≠ []) :
    upload_pdf db ufn ofn extracted 200 results catalog =
      (UploadResult.ok
        { id := db.nextOrderId, filename := ufn, original_filename := ofn,
          extracted_data := extracted.filterMap transform_extracted_item,
          matched_items := (process_items results catalog db.nextOrderId db.nextLineItemId
            (extracted.filterMap transform_extracted_item)).2 },
       { orders := db.orders ++
           [{ id := db.nextOrderId, filename := ufn, original_filename := ofn,
              status := "pending" }],
         line_items := db.line_items ++
           (process_items results catalog db.nextOrderId db.nextLineItemId
             (extracted.filterMap transform_extracted_item)).1,
         nextOrderId := db.nextOrderId + 1,
         nextLineItemId := db.nextLineItemId +
           (process_items results catalog db.nextOrderId db.nextLineItemId
             (extracted.filterMap transform_extracted_item)).1.length }) := by
  have hic : (extracted.filterMap transform_extracted_item).isEmpty = false := by
    simpa using hne
  simp [upload_pdf, hic]

/-- Fields of the persisted line item when the candidate list of its
description is empty or the description is absent from the response. -/
theorem mk_line_item_no_match (results : List (String × List Candidate))
    (oid iid : Nat) (t : Transformed)
    (h : resultsFor results t.description = []) :
    (mk_line_item results oid iid t).catalog_match_id = Option.none ∧
    (mk_line_item results oid iid t).confidence_score = 0 := by
  simp [mk_line_item, h]

/-- Fields of the persisted line item when the candidate list of its
description is non-empty. -/
theorem mk_line_item_best_match (results : List (String × List Candidate))
    (oid iid : Nat) (t : Transformed) (c : Candidate) (cs : List Candidate)
    (h : resultsFor results t.description = c :: cs) :
    (mk_line_item results oid iid t).catalog_match_id = c.matchField ∧
    (mk_line_item results oid iid t).confidence_score = c.score.getD 0 := by
  simp [mk_line_item, h]

/-- C2: in a successful upload, the line item persisted for the i-th
surviving row carries the score and the match field of the first
candidate listed for its description in the batch response, and carries
no match id and confidence 0 when that candidate list is empty or the
description is absent from the response. -/
theorem C2_best_candidate_recorded (db : DB) (ufn ofn : String) (extracted : List Item)
    (results : List (String × List Candidate)) (catalog : Option (List CatalogRow))
    (i : Nat) (t : Transformed)
    (ht : (extracted.filterMap transform_extracted_item)[i]? = some t) :
    ∃ li,
      (upload_pdf db ufn ofn extracted 200 results catalog).2.line_items[db.line_items.length + i]? =
        some li ∧
      (resultsFor results t.description = [] →
        li.catalog_match_id = Option.none ∧ li.confidence_score = 0) ∧
      (∀ c cs, resultsFor results t.description = c :: cs →
        li.catalog_match_id = c.matchField ∧ li.confidence_score = c.score.getD 0 ∧
        ∀ s, c.score = some s → li.confidence_score = s) := by
  have hne : extracted.filterMap transform_extracted_item ≠ [] := by
    intro hemp
    rw [hemp] at ht
    simp at ht
  refine ⟨mk_line_item results db.nextOrderId (db.nextLineItemId + i) t, ?_, ?_, ?_⟩
  · rw [upload_pdf_ok_eq db ufn ofn extracted results catalog hne]
    rw [List.getElem?_append_right (Nat.le_add_right _ _)]
    rw [Nat.add_sub_cancel_left]
    exact process_items_fst_getElem results catalog db.nextOrderId
      (extracted.filterMap transform_extracted_item) db.nextLineItemId i t ht
  · exact mk_line_item_no_match results db.nextOrderId (db.nextLineItemId + i) t
  · intro c cs hc
    obtain ⟨h1, h2⟩ :=
      mk_line_item_best_match results db.nextOrderId (db.nextLineItemId + i) t c cs hc
    refine ⟨h1, h2, ?_⟩
    intro s hs
    rw [h2, hs]
    rfl

/-- Witness for C2 at a concrete one-row upload with one candidate. -/
theorem C2_witness :
    ∃ li,
      (upload_pdf { orders := [], line_items := [], nextOrderId := 1, nextLineItemId := 1 }
        "f.pdf" "o.pdf"
        [[("Description", Value.str "Bolt M6"), ("Qty", Value.str "5")]] 200
        [("Bolt M6", [{ matchField := some "Bolt Steel M6 20mm Zinc Coarse",
                        score := some (91/100) }])]
        Option.none).2.line_items[(0 : Nat) + 0]? = some li ∧
      (resultsFor [("Bolt M6", [{ matchField := some "Bolt Steel M6 20mm Zinc Coarse",
                                  score := some (91/100) }])]
          (Value.str "Bolt M6") = [] →
        li.catalog_match_id = Option.none ∧ li.confidence_score = 0) ∧
      (∀ c cs, resultsFor [("Bolt M6", [{ matchField := some "Bolt Steel M6 20mm Zinc Coarse",
                                          score := some (91/100) }])]
          (Value.str "Bolt M6") = c :: cs →
        li.catalog_match_id = c.matchField ∧ li.confidence_score = c.score.getD 0 ∧
        ∀ s, c.score = some s → li.confidence_score = s) := by
  have h := C2_best_candidate_recorded
    { orders := [], line_items := [], nextOrderId := 1, nextLineItemId := 1 }
    "f.pdf" "o.pdf"
    [[("Description", Value.str "Bolt M6"), ("Qty", Value.str "5")]]
    [("Bolt M6", [{ matchField := some "Bolt Steel M6 20mm Zinc Coarse",
                    score := some (91/100) }])]
    Option.none 0
    { description := Value.str "Bolt M6", quantity := 5, unit_price := 0, total_price := 0 }
    (by with_unfolding_all decide)
  simpa using h

/-- The stored catalog_match_data when the best candidate carries a
non-empty key: the key is repeated in all three fields, whatever the
catalog holds. -/
theorem mk_line_item_match_data (results : List (String × List Candidate))
    (oid iid : Nat) (t : Transformed) (c : Candidate) (cs : List Candidate) (k : String)
    (h : resultsFor results t.description = c :: cs)
    (hk : c.matchField = some k) (hne : k ≠ "") :
    (mk_line_item results oid iid t).catalog_match_data =
      some { id := k, name := k, description := k } := by
  simp [mk_line_item, h, hk, hne]

/-- The response entry for a matched row: the catalog lookup result is
returned to the caller (and only there). -/
theorem mk_matched_item_match (results : List (String × List Candidate))
    (catalog : Option (List CatalogRow)) (t : Transformed) (c : Candidate)
    (cs : List Candidate) (k : String)
    (h : resultsFor results t.description = c :: cs)
    (hk : c.matchField = some k) :
    mk_matched_item results catalog t =
      (t,
       match catalog with
       | some rows => findCatalogItem rows k
       | Option.none => Option.none,
       c.score.getD 0) := by
  cases catalog <;> simp [mk_matched_item, h, hk]

/-- C5: the claim fails on the code.  In this concrete upload the
matched key resolves in the catalog to an item whose description is the
Description column Hex head bolt, yet the persisted catalog_match_data
stores the key itself in the name and description fields; the resolved
metadata never reaches the store. -/
theorem C5_counterexample :
    ((upload_pdf emptyDB "f.pdf" "o.pdf" sampleExtracted 200 sampleResults
        (some [sampleRow])).2.line_items.map LineItem.catalog_match_data) =
      [some { id := sampleKey, name := sampleKey, description := sampleKey }] ∧
    findCatalogItem [sampleRow] sampleKey =
      some { id := sampleKey, name := sampleKey, description := "Hex head bolt" } ∧
    sampleKey ≠ "Hex head bolt" := by
  refine ⟨?_, ?_, ?_⟩ <;> with_unfolding_all decide

/-- C5 (amended): for every surviving row whose best candidate carries a
non-empty catalog key, the persisted structured metadata holds that key
in all three fields (id, name, description), independently of catalog
resolution; the metadata resolved from the catalog source (display name
and catalog Description) is only returned in the matched_items entry of
the response, and is absent there exactly when resolution fails. -/
theorem C5_match_data_is_key (db : DB) (ufn ofn : String) (extracted : List Item)
    (results : List (String × List Candidate)) (catalog : Option (List CatalogRow))
    (i : Nat) (t : Transformed) (c : Candidate) (cs : List Candidate) (k : String)
    (ht : (extracted.filterMap transform_extracted_item)[i]? = some t)
    (hm : resultsFor results t.description = c :: cs)
    (hk : c.matchField = some k) (hne : k ≠ "") :
    (∃ li,
      (upload_pdf db ufn ofn extracted 200 results catalog).2.line_items[db.line_items.length + i]? =
        some li ∧
      li.catalog_match_data = some { id := k, name := k, description := k }) ∧
    (∃ resp, (upload_pdf db ufn ofn extracted 200 results catalog).1 = UploadResult.ok resp ∧
      resp.matched_items[i]? = some (t,
        match catalog with
        | some rows => findCatalogItem rows k
        | Option.none => Option.none,
        c.score.getD 0)) := by
  have hnil : extracted.filterMap transform_extracted_item ≠ [] := by
    intro hemp
    rw [hemp] at ht
    simp at ht
  constructor
  · refine ⟨mk_line_item results db.nextOrderId (db.nextLineItemId + i) t, ?_, ?_⟩
    · rw [upload_pdf_ok_eq db ufn ofn extracted results catalog hnil]
      rw [List.getElem?_append_right (Nat.le_add_right _ _)]
      rw [Nat.add_sub_cancel_left]
      exact process_items_fst_getElem results catalog db.nextOrderId
        (extracted.filterMap transform_extracted_item) db.nextLineItemId i t ht
    · exact mk_line_item_match_data results db.nextOrderId (db.nextLineItemId + i) t c cs k
        hm hk hne
  · rw [upload_pdf_ok_eq db ufn ofn extracted results catalog hnil]
    refine ⟨_, rfl, ?_⟩
    rw [process_items_snd_getElem results catalog db.nextOrderId
      (extracted.filterMap transform_extracted_item) db.nextLineItemId i t ht]
    rw [mk_matched_item_match results catalog t c cs k hm hk]

/-- Witness for the amended C5 at a concrete upload whose catalog holds
sampleRow. -/
theorem C5_witness :
    (∃ li,
      (upload_pdf emptyDB "f.pdf" "o.pdf" sampleExtracted 200 sampleResults
        (some [sampleRow])).2.line_items[emptyDB.line_items.length + 0]? = some li ∧
      li.catalog_match_data =
        some { id := sampleKey, name := sampleKey, description := sampleKey }) ∧
    (∃ resp, (upload_pdf emptyDB "f.pdf" "o.pdf" sampleExtracted 200 sampleResults
        (some [sampleRow])).1 = UploadResult.ok resp ∧
      resp.matched_items[(0 : Nat)]? = some
        ({ description := Value.str "Bolt M6", quantity := 5, unit_price := 0,
           total_price := 0 },
         match some [sampleRow] with
         | some rows => findCatalogItem rows sampleKey
         | Option.none => Option.none,
         ({ matchField := some sampleKey, score := some (91/100) : Candidate }).score.getD 0)) :=
  C5_match_data_is_key emptyDB "f.pdf" "o.pdf" sampleExtracted sampleResults
    (some [sampleRow]) 0
    { description := Value.str "Bolt M6", quantity := 5, unit_price := 0, total_price := 0 }
    { matchField := some sampleKey, score := some (91/100) } [] sampleKey
    (by with_unfolding_all decide) (by with_unfolding_all decide)
    (by with_unfolding_all decide) (by with_unfolding_all decide)

/-- C6: when at least one row survives normalization and the batch
matching call returns a non-success status, the upload fails propagating
that status, yet the order committed before the matching call is still
retrievable in pending state, and the set of stored line items is
exactly what it was before the upload. -/
theorem C6_order_survives_matching_failure (db : DB) (ufn ofn : String)
    (extracted : List Item) (bs : Nat) (results : List (String × List Candidate))
    (catalog : Option (List CatalogRow))
    (hne : extracted.filterMap transform_extracted_item ≠ [])
    (hbs : bs ≠ 200)
    (hfresh : ∀ o ∈ db.orders, o.id ≠ db.nextOrderId) :
    (upload_pdf db ufn ofn extracted bs results catalog).1 =
      UploadResult.matchingFailed bs ∧
    (upload_pdf db ufn ofn extracted bs results catalog).2.line_items = db.line_items ∧
    get_order (upload_pdf db ufn ofn extracted bs results catalog).2 db.nextOrderId =
      some ({ id := db.nextOrderId, filename := ufn, original_filename := ofn,
              status := "pending" },
            db.line_items.filter (fun li => li.sales_order_id = db.nextOrderId)) := by
  have hic : (extracted.filterMap transform_extracted_item).isEmpty = false := by
    simpa using hne
  have hupload : upload_pdf db ufn ofn extracted bs results catalog =
      (UploadResult.matchingFailed bs,
       { orders := (db.orders ++
           [{ id := db.nextOrderId, filename := ufn, original_filename := ofn,
              status := "pending" }]),
         line_items := db.line_items,
         nextOrderId := db.nextOrderId + 1,
         nextLineItemId := db.nextLineItemId }) := by
    simp [upload_pdf, hic, hbs]
  rw [hupload]
  refine ⟨rfl, rfl, ?_⟩
  unfold get_order
  rw [List.find?_append]
  have h1 : db.orders.find? (fun o => o.id = db.nextOrderId) = Option.none := by
    rw [List.find?_eq_none]
    intro o ho
    simpa using hfresh o ho
  rw [h1]
  simp

/-- Witness for C6: a failed matching call at status 500 leaves the
order behind with no line items. -/
theorem C6_witness :
    (upload_pdf emptyDB "f.pdf" "o.pdf" sampleExtracted 500 [] Option.none).1 =
      UploadResult.matchingFailed 500 ∧
    (upload_pdf emptyDB "f.pdf" "o.pdf" sampleExtracted 500 [] Option.none).2.line_items =
      emptyDB.line_items ∧
    get_order (upload_pdf emptyDB "f.pdf" "o.pdf" sampleExtracted 500 [] Option.none).2
        emptyDB.nextOrderId =
      some ({ id := emptyDB.nextOrderId, filename := "f.pdf", original_filename := "o.pdf",
              status := "pending" },
            emptyDB.line_items.filter (fun li => li.sales_order_id = emptyDB.nextOrderId)) :=
  C6_order_survives_matching_failure emptyDB "f.pdf" "o.pdf" sampleExtracted 500 []
    Option.none (by with_unfolding_all decide) (by with_unfolding_all decide)
    (by intro o ho; simp [emptyDB] at ho)

/-- Marking the first matching order exported changes exactly what a
subsequent lookup of that id sees: the same order with status
exported. -/
theorem markExportedFirst_find? (l : List SalesOrder) (oid : Nat) (o : SalesOrder)
    (h : l.find? (fun o2 => o2.id = oid) = some o) :
    (markExportedFirst oid l).find? (fun o2 => o2.id = oid) =
      some { o with status := "exported" } := by
  induction l with
  | nil => simp at h
  | cons a as ih =>
    by_cases hp : a.id = oid
    · rw [List.find?_cons_of_pos _ (by simpa using hp)] at h
      injection h with h
      subst h
      unfold markExportedFirst
      rw [if_pos hp]
      rw [List.find?_cons_of_pos _ (by simpa using hp)]
    · rw [List.find?_cons_of_neg _ (by simpa using hp)] at h
      unfold markExportedFirst
      rw [if_neg hp]
      rw [List.find?_cons_of_neg _ (by simpa using hp)]
      exact ih h

/-- C7: export of a missing order fails with the not-found error, and
export of an existing order returns one header row naming the five
columns followed by exactly one row per line item of the order, whose
fifth cell is the stored match name when match data is present and the
literal No match otherwise; the returned state already has the order
marked exported. -/
theorem C7_export_shape (db : DB) (oid : Nat) :
    (db.orders.find? (fun o => o.id = oid) = Option.none →
      export_order db oid = Option.none) ∧
    (∀ o, db.orders.find? (fun o2 => o2.id = oid) = some o →
      ∃ rows db2, export_order db oid = some (rows, db2) ∧
        rows.length =
          (db.line_items.filter (fun li => li.sales_order_id = oid)).length + 1 ∧
        rows[0]? = some [Value.str "Description", Value.str "Quantity",
          Value.str "Unit Price", Value.str "Total Price", Value.str "Catalog Match"] ∧
        (∀ i li,
          (db.line_items.filter (fun li2 => li2.sales_order_id = oid))[i]? = some li →
          rows[i + 1]? = some (exportRow li) ∧
          (exportRow li)[4]? = some (match li.catalog_match_data with
            | some d => Value.str d.name
            | Option.none => Value.str "No match")) ∧
        ∃ o2, db2.orders.find? (fun o3 => o3.id = oid) = some o2 ∧
          o2.status = "exported") := by
  constructor
  · intro h
    unfold export_order
    rw [h]
  · intro o ho
    have hexp : export_order db oid =
        some ((exportHeader ::
            (db.line_items.filter (fun li => li.sales_order_id = oid)).map exportRow),
          { orders := markExportedFirst oid db.orders, line_items := db.line_items,
            nextOrderId := db.nextOrderId, nextLineItemId := db.nextLineItemId }) := by
      unfold export_order
      rw [ho]
    refine ⟨_, _, hexp, ?_, ?_, ?_, ?_⟩
    · simp
    · simp [exportHeader]
    · intro i li hli
      refine ⟨?_, ?_⟩
      · simp [hli]
      · rfl
    · exact ⟨_, markExportedFirst_find? db.orders oid o ho, rfl⟩

/-- Witness for C7: exporting the one-item sample order yields two rows
(header plus one data row) and leaves the order exported. -/
theorem C7_witness :
    ∃ rows db2, export_order sampleDB 1 = some (rows, db2) ∧ rows.length = 2 ∧
      ∃ o2, db2.orders.find? (fun o3 => o3.id = 1) = some o2 ∧
        o2.status = "exported" := by
  obtain ⟨rows, db2, h1, h2, h3, h4, o2, h5, h6⟩ :=
    (C7_export_shape sampleDB 1).2 sampleOrder (by with_unfolding_all decide)
  refine ⟨rows, db2, h1, ?_, o2, h5, h6⟩
  rw [h2]
  with_unfolding_all decide

/-- The element found by the selector ends up, updated, in the list
produced by updateFirst. -/
theorem updateFirst_mem (p : LineItem → Bool) (f : LineItem → LineItem)
    (l : List LineItem) (x : LineItem) (h : l.find? p = some x) :
    f x ∈ updateFirst p f l := by
  induction l with
  | nil => simp at h
  | cons a as ih =>
    by_cases hp : p a = true
    · rw [List.find?_cons_of_pos _ hp] at h
      injection h with h
      subst h
      unfold updateFirst
      rw [if_pos hp]
      exact List.mem_cons_self _ _
    · rw [List.find?_cons_of_neg _ (by simpa using hp)] at h
      unfold updateFirst
      rw [if_neg hp]
      exact List.mem_cons_of_mem _ (ih h)

/-- updateFirst preserves the length of the list. -/
theorem updateFirst_length (p : LineItem → Bool) (f : LineItem → LineItem)
    (l : List LineItem) : (updateFirst p f l).length = l.length := by
  induction l with
  | nil => rfl
  | cons a as ih =>
    unfold updateFirst
    by_cases hp : p a = true
    · rw [if_pos hp]
      simp
    · rw [if_neg hp]
      simp [ih]

/-- Pointwise view of updateFirst: every position holds either the old
element or its update. -/
theorem updateFirst_getElem (p : LineItem → Bool) (f : LineItem → LineItem) :
    ∀ (l : List LineItem) (i : Nat) (li li2 : LineItem),
      l[i]? = some li → (updateFirst p f l)[i]? = some li2 →
      li2 = li ∨ li2 = f li
  | [], i, _, _, h, _ => by simp at h
  | a :: as, 0, li, li2, h, h2 => by
    simp at h
    unfold updateFirst at h2
    by_cases hp : p a = true
    · rw [if_pos hp] at h2
      simp at h2
      rw [← h]
      exact Or.inr h2.symm
    · rw [if_neg hp] at h2
      simp at h2
      rw [← h]
      exact Or.inl h2.symm
  | a :: as, n + 1, li, li2, h, h2 => by
    simp at h
    unfold updateFirst at h2
    by_cases hp : p a = true
    · rw [if_pos hp] at h2
      simp at h2
      rw [h] at h2
      exact Or.inl (by injection h2 with h2; exact h2.symm)
    · rw [if_neg hp] at h2
      simp at h2
      exact updateFirst_getElem p f as n li li2 h h2

/-- C8: on a line item that does not belong to the order the update
fails with the not-found error; on one that does, the returned line
item carries exactly the four supplied fields and is among the line
items a subsequent get_order returns for that order. -/
theorem C8_update_roundtrip (db : DB) (oid liid : Nat) (f : LineItemBase) :
    (db.line_items.find? (liSelector oid liid) = Option.none →
      update_line_item db oid liid f = Option.none) ∧
    (∀ li0, db.line_items.find? (liSelector oid liid) = some li0 →
      ∃ li2 db2, update_line_item db oid liid f = some (li2, db2) ∧
        li2.description = Value.str f.description ∧
        li2.quantity = f.quantity ∧
        li2.unit_price = f.unit_price ∧
        li2.total_price = f.total_price ∧
        db2.orders = db.orders ∧
        (∀ o items, get_order db2 oid = some (o, items) → li2 ∈ items)) := by
  constructor
  · intro h
    unfold update_line_item
    rw [h]
  · intro li0 h
    have hupd : update_line_item db oid liid f =
        some (applyLineItemBase f li0,
          { orders := db.orders,
            line_items := (updateFirst (liSelector oid liid) (applyLineItemBase f)
              db.line_items),
            nextOrderId := db.nextOrderId, nextLineItemId := db.nextLineItemId }) := by
      unfold update_line_item
      rw [h]
    refine ⟨_, _, hupd, rfl, rfl, rfl, rfl, rfl, ?_⟩
    intro o items hget
    unfold get_order at hget
    cases hfo : List.find? (fun o2 => o2.id = oid) db.orders <;> rw [hfo] at hget
    · cases hget
    · injection hget with hget
      injection hget with _ hitems
      subst hitems
      have hsel := List.find?_some h
      simp [liSelector] at hsel
      rw [List.mem_filter]
      refine ⟨updateFirst_mem _ _ _ _ h, ?_⟩
      simpa [applyLineItemBase] using hsel.2

/-- Witness for C8 on the sample store: updating the single line item
with four fresh values round-trips them through get_order. -/
theorem C8_witness :
    ∃ li2 db2,
      update_line_item sampleDB 1 1
        { description := "New desc", quantity := 7, unit_price := 3, total_price := 21 } =
        some (li2, db2) ∧
      li2.description = Value.str "New desc" ∧
      li2.quantity = 7 ∧
      li2.unit_price = 3 ∧
      li2.total_price = 21 ∧
      db2.orders = sampleDB.orders ∧
      (∀ o items, get_order db2 1 = some (o, items) → li2 ∈ items) := by
  obtain ⟨li2, db2, h1, h2, h3, h4, h5, h6, h7⟩ :=
    (C8_update_roundtrip sampleDB 1 1
      { description := "New desc", quantity := 7, unit_price := 3, total_price := 21 }).2
      sampleItem (by with_unfolding_all decide)
  exact ⟨li2, db2, h1, h2, h3, h4, h5, h6, h7⟩

/-- C9: update_match fails with the not-found error exactly when no
stored line item has the given id under the given order; on success the
addressed line item ends up with the supplied catalog id and status
verified. -/
theorem C9_update_match_spec (db : DB) (oid liid : Nat) (cid : String) :
    (update_match db oid liid cid = Option.none ↔
      ∀ li ∈ db.line_items, ¬(li.id = liid ∧ li.sales_order_id = oid)) ∧
    (∀ db2, update_match db oid liid cid = some db2 →
      ∃ li2, li2 ∈ db2.line_items ∧ li2.id = liid ∧ li2.sales_order_id = oid ∧
        li2.catalog_match_id = some cid ∧ li2.status = "verified") := by
  constructor
  · cases hf : db.line_items.find? (liSelector oid liid) with
    | none =>
      rw [List.find?_eq_none] at hf
      constructor
      · intro _ li hli
        have := hf li hli
        simpa [liSelector] using this
      · intro _
        unfold update_match
        rw [List.find?_eq_none.mpr hf]
    | some x =>
      constructor
      · intro hnone
        unfold update_match at hnone
        rw [hf] at hnone
        cases hnone
      · intro hall
        exfalso
        have hp := List.find?_some hf
        simp [liSelector] at hp
        exact hall x (List.mem_of_find?_eq_some hf) ⟨hp.1, hp.2⟩
  · intro db2 hupd
    unfold update_match at hupd
    cases hf : db.line_items.find? (liSelector oid liid) <;> rw [hf] at hupd
    · cases hupd
    · injection hupd with hupd
      subst hupd
      have hp := List.find?_some hf
      simp [liSelector] at hp
      exact ⟨_, updateFirst_mem _ _ _ _ hf, hp.1, hp.2, rfl, rfl⟩

/-- Witness for C9 on the sample store. -/
theorem C9_witness :
    ∃ db2, update_match sampleDB 1 1 "Verified Key" = some db2 ∧
      ∃ li2, li2 ∈ db2.line_items ∧ li2.id = 1 ∧ li2.sales_order_id = 1 ∧
        li2.catalog_match_id = some "Verified Key" ∧ li2.status = "verified" := by
  cases hupd : update_match sampleDB 1 1 "Verified Key" with
  | none =>
    exfalso
    have := ((C9_update_match_spec sampleDB 1 1 "Verified Key").1.mp hupd)
      sampleItem (by with_unfolding_all decide)
    exact this (by with_unfolding_all decide)
  | some db2 =>
    exact ⟨db2, rfl, (C9_update_match_spec sampleDB 1 1 "Verified Key").2 db2 hupd⟩

/-- C10: update_match changes nothing besides the match id and the
status of the addressed line item: orders are untouched, the number of
line items is unchanged, and every stored line item keeps its id,
parent, description, quantities, prices, stored match metadata and
confidence, so its export row (including the Catalog Match cell) is
identical before and after. -/
theorem C10_update_match_frame (db : DB) (oid liid : Nat) (cid : String) (db2 : DB)
    (h : update_match db oid liid cid = some db2) :
    db2.orders = db.orders ∧
    db2.line_items.length = db.line_items.length ∧
    ∀ (i : Nat) (li li2 : LineItem),
      db.line_items[i]? = some li → db2.line_items[i]? = some li2 →
      li2.id = li.id ∧ li2.sales_order_id = li.sales_order_id ∧
      li2.description = li.description ∧ li2.quantity = li.quantity ∧
      li2.unit_price = li.unit_price ∧ li2.total_price = li.total_price ∧
      li2.catalog_match_data = li.catalog_match_data ∧
      li2.confidence_score = li.confidence_score ∧
      exportRow li2 = exportRow li := by
  unfold update_match at h
  cases hf : db.line_items.find? (liSelector oid liid) <;> rw [hf] at h
  · cases h
  · injection h with h
    subst h
    refine ⟨rfl, updateFirst_length _ _ _, ?_⟩
    intro i li li2 h1 h2
    rcases updateFirst_getElem _ _ db.line_items i li li2 h1 h2 with rfl | rfl
    · exact ⟨rfl, rfl, rfl, rfl, rfl, rfl, rfl, rfl, rfl⟩
    · exact ⟨rfl, rfl, rfl, rfl, rfl, rfl, rfl, rfl, rfl⟩

/-- Witness for C10 on the sample store: after verifying a new match,
the export row of the line item still shows the ingestion-time data. -/
theorem C10_witness :
    ∃ db2, update_match sampleDB 1 1 "Other Key" = some db2 ∧
      db2.orders = sampleDB.orders ∧
      db2.line_items.length = sampleDB.line_items.length ∧
      (∀ (i : Nat) (li li2 : LineItem),
        sampleDB.line_items[i]? = some li → db2.line_items[i]? = some li2 →
        li2.catalog_match_data = li.catalog_match_data ∧ exportRow li2 = exportRow li) := by
  have hupd : update_match sampleDB 1 1 "Other Key" =
      some { orders := [sampleOrder],
             line_items :=
               [({ sampleItem with catalog_match_id := some "Other Key", status := "verified" })],
             nextOrderId := 2, nextLineItemId := 2 } := by
    with_unfolding_all decide
  obtain ⟨ho, hl, hfields⟩ := C10_update_match_frame sampleDB 1 1 "Other Key" _ hupd
  refine ⟨_, hupd, ho, hl, ?_⟩
  intro i li li2 h1 h2
  obtain ⟨_, _, _, _, _, _, hdata, _, hrow⟩ := hfields i li li2 h1 h2
  exact ⟨hdata, hrow⟩
